import Mathlib

/-!
Verification of the REAI (Reentry Employment Accessibility Index) calculator.

The definitions below are a shallow embedding of `src/reai_calculator.py`.
Real-valued data is modelled by the rationals; a pandas DataFrame is an
association list from column names to columns (pandas column names are unique,
and assignment `df[name] = col` replaces an existing column in place or appends
a new one at the end); a Python dict of weights is an association list from
strings to rationals (dict keys are unique and iteration follows insertion
order).  Fallible operations (missing columns raise KeyError, bad weight sets
raise ValueError) return `Option` or `Except String`.
-/

/-- A DataFrame column: numeric (float), string, or integer valued. -/
inductive Col where
  | nums : List ℚ → Col
  | strs : List String → Col
  | ints : List ℤ → Col
deriving DecidableEq

/-- A DataFrame: association list from column names to columns. -/
abbrev DataFrame := List (String × Col)

/-- First-match association-list lookup; models Python dict / pandas column
lookup (keys are unique in both, so first match is the match). -/
def lookupFirst {α : Type} : List (String × α) → String → Option α
  | [], _ => none
  | (k, v) :: rest, n => if k = n then some v else lookupFirst rest n

/-- Insert-or-replace for an association list; models `df[name] = col`
(replace the existing column, else append a new column at the end). -/
def setCol {α : Type} : List (String × α) → String → α → List (String × α)
  | [], n, c => [(n, c)]
  | (k, v) :: rest, n, c => if k = n then (n, c) :: rest else (k, v) :: setCol rest n c

/-- Column lookup in a numeric context (`df[name]` used in arithmetic):
succeeds only when the column exists and is numeric. -/
def getNum (df : DataFrame) (n : String) : Option (List ℚ) :=
  match lookupFirst df n with
  | some (Col.nums l) => some l
  | _ => none

/-- Binary minimum on ℚ, written so that the kernel can evaluate it. -/
def ratMin (a b : ℚ) : ℚ := if a ≤ b then a else b

/-- Binary maximum on ℚ, written so that the kernel can evaluate it. -/
def ratMax (a b : ℚ) : ℚ := if b ≤ a then a else b

/-- Minimum of a series (`series.min()`); `0` is an unused sentinel for the
empty series (the source never takes this value on the branches modelled). -/
def seriesMin : List ℚ → ℚ
  | [] => 0
  | x :: xs => xs.foldl ratMin x

/-- Maximum of a series (`series.max()`). -/
def seriesMax : List ℚ → ℚ
  | [] => 0
  | x :: xs => xs.foldl ratMax x

/-- Min-max normalization to the 0-100 scale, `normalize_score` in the source:
if max equals min the whole series maps to the neutral 50.0, otherwise each
value v maps to (v - min) / (max - min) * 100, reflected about 50 afterwards
when `reverse` is set.  On the empty series both the source (whose NaN min and
max fail the equality test and propagate through an empty map) and this model
return an empty series. -/
def normalize_score (series : List ℚ) (reverse : Bool) : List ℚ :=
  match series with
  | [] => []
  | x :: xs =>
    let min_val := seriesMin (x :: xs)
    let max_val := seriesMax (x :: xs)
    if max_val = min_val then (x :: xs).map (fun _ => 50)
    else
      let normalized := (x :: xs).map (fun v => (v - min_val) / (max_val - min_val) * 100)
      if reverse then normalized.map (fun s => 100 - s) else normalized

/-- Pointwise combination of two aligned series. -/
def zipWith2 {α : Type} (f : α → α → α) : List α → List α → List α
  | a :: as, b :: bs => f a b :: zipWith2 f as bs
  | _, _ => []

/-- Pointwise combination of three aligned series. -/
def zipWith3 {α : Type} (f : α → α → α → α) : List α → List α → List α → List α
  | a :: as, b :: bs, c :: cs => f a b c :: zipWith3 f as bs cs
  | _, _, _ => []

/-- Pointwise combination of four aligned series. -/
def zipWith4 {α : Type} (f : α → α → α → α → α) :
    List α → List α → List α → List α → List α
  | a :: as, b :: bs, c :: cs, d :: ds => f a b c d :: zipWith4 f as bs cs ds
  | _, _, _, _ => []

/-- Transportation and Mobility Access score, `calculate_transportation_score`:
normalize 100 - pct_no_vehicle (direct), avg_commute_time (reversed) and
pct_broadband (direct), then take the unweighted mean of the three. -/
def calculate_transportation_score (df : DataFrame) : Option (List ℚ) :=
  (getNum df "pct_no_vehicle").bind fun nv =>
  (getNum df "avg_commute_time").bind fun ct =>
  (getNum df "pct_broadband").bind fun bb =>
  let vehicle_score := normalize_score (nv.map (fun v => 100 - v)) false
  let commute_score := normalize_score ct true
  let broadband_score := normalize_score bb false
  some (zipWith3 (fun a b c => (a + b + c) / 3) vehicle_score commute_score broadband_score)

/-- Local Labor Market Demand score, `calculate_labor_market_score`:
normalize unemployment_rate (reversed), employment_growth (direct) and
poverty_rate (reversed), then combine 0.40 / 0.30 / 0.30. -/
def calculate_labor_market_score (df : DataFrame) : Option (List ℚ) :=
  (getNum df "unemployment_rate").bind fun ur =>
  (getNum df "employment_growth").bind fun eg =>
  (getNum df "poverty_rate").bind fun pr =>
  let unemployment_score := normalize_score ur true
  let employment_growth_score := normalize_score eg false
  let poverty_score := normalize_score pr true
  some (zipWith3
    (fun u g p => u * (40 / 100) + g * (30 / 100) + p * (30 / 100))
    unemployment_score employment_growth_score poverty_score)

/-- Occupational Licensing Burden score, `calculate_licensing_score`:
the reversed normalization of licensing_burden_index. -/
def calculate_licensing_score (df : DataFrame) : Option (List ℚ) :=
  (getNum df "licensing_burden_index").bind fun lb =>
  some (normalize_score lb true)

/-- Fair-Chance Policy Environment score, `calculate_policy_score`:
normalize ban_the_box_score and fair_chance_score (both direct), then take
the unweighted mean of the two. -/
def calculate_policy_score (df : DataFrame) : Option (List ℚ) :=
  (getNum df "ban_the_box_score").bind fun btb =>
  (getNum df "fair_chance_score").bind fun fc =>
  let btb_score := normalize_score btb false
  let fair_chance_sc := normalize_score fc false
  some (zipWith2 (fun b f => (b + f) / 2) btb_score fair_chance_sc)

/-- Weighted composite of the four component score columns; the expression
`t * w_t + l * w_l + li * w_li + p * w_p` appears verbatim both in
`calculate_reai` and in `sensitivity_analysis`. -/
def compositeOf (wt wl wli wp : ℚ) (ts ls lic ps : List ℚ) : List ℚ :=
  zipWith4 (fun t l li p => t * wt + l * wl + li * wli + p * wp) ts ls lic ps

/-- Number of entries of a series strictly greater than x. -/
def countGreater (x : ℚ) : List ℚ → ℕ
  | [] => 0
  | y :: ys => (if x < y then 1 else 0) + countGreater x ys

/-- Competition ranking of a series, descending, ties to the minimum rank:
`series.rank(ascending=False, method='min').astype(int)`.  Each value gets
1 plus the number of strictly greater values. -/
def rankDescMin (v : List ℚ) : List ℤ :=
  v.map (fun x => 1 + (countGreater x v : ℤ))

/-- Absolute value on ℚ, written so that the kernel can evaluate it. -/
def ratAbs (x : ℚ) : ℚ := if x < 0 then -x else x

/-- np.isclose with its default tolerances: |a - b| <= atol + rtol * |b|
with atol = 1e-8 and rtol = 1e-5. -/
def isclose (a b : ℚ) : Bool :=
  decide (ratAbs (a - b) ≤ 1 / 100000000 + (1 / 100000) * ratAbs b)

/-- The REAI calculation engine: its only state is the weight configuration
fixed at construction. -/
structure REAICalculator where
  weights : List (String × ℚ)
deriving DecidableEq

/-- Default component weights from `__init__`. -/
def default_weights : List (String × ℚ) :=
  [("transportation", 30 / 100), ("labor_market", 35 / 100),
   ("licensing", 20 / 100), ("policy", 15 / 100)]

/-- Engine construction, `__init__` followed by `_validate_weights`:
a missing (`None`) or empty weights dict is falsy in Python, so the default
weights are silently substituted; the chosen weights must then sum to 1.0
up to `np.isclose`'s default tolerance or a ValueError is raised.  All of
this happens before any scoring. -/
def REAICalculator.init (weights : Option (List (String × ℚ))) :
    Except String REAICalculator :=
  let w := match weights with
    | none => default_weights
    | some ws => if ws.isEmpty then default_weights else ws
  if isclose ((w.map Prod.snd).sum) 1 then Except.ok ⟨w⟩
  else Except.error "Weights must sum to 1.0"

/-- The six derived columns attached by `calculate_reai`. -/
def derivedNames : List String :=
  ["transportation_score", "labor_market_score", "licensing_score",
   "policy_score", "REAI", "REAI_rank"]

/-- Full REAI computation, `calculate_reai`: attach the four component score
columns to the frame in order, then the weighted composite REAI (the stored
component columns it reads back are exactly the series just attached), then
the descending minimum-method rank.  The mutated frame is returned. -/
def REAICalculator.calculate_reai (c : REAICalculator) (df : DataFrame) :
    Option DataFrame :=
  (calculate_transportation_score df).bind fun ts =>
  let df1 := setCol df "transportation_score" (Col.nums ts)
  (calculate_labor_market_score df1).bind fun ls =>
  let df2 := setCol df1 "labor_market_score" (Col.nums ls)
  (calculate_licensing_score df2).bind fun lic =>
  let df3 := setCol df2 "licensing_score" (Col.nums lic)
  (calculate_policy_score df3).bind fun ps =>
  let df4 := setCol df3 "policy_score" (Col.nums ps)
  (lookupFirst c.weights "transportation").bind fun wt =>
  (lookupFirst c.weights "labor_market").bind fun wl =>
  (lookupFirst c.weights "licensing").bind fun wli =>
  (lookupFirst c.weights "policy").bind fun wp =>
  let reai := compositeOf wt wl wli wp ts ls lic ps
  let df5 := setCol df4 "REAI" (Col.nums reai)
  let df6 := setCol df5 "REAI_rank" (Col.ints (rankDescMin reai))
  some df6

/-- The per-scenario loop of `sensitivity_analysis`: for each named scenario,
first validate that its weight set sums to 1.0 (ValueError naming the scenario
otherwise), then read the component score columns and the scenario's own four
weights (KeyError when absent) and attach the scenario composite and its rank
to the results frame. -/
def sensitivityLoop (df : DataFrame) :
    List (String × List (String × ℚ)) → DataFrame → Except String DataFrame
  | [], results => Except.ok results
  | (scName, weights) :: rest, results =>
    if isclose ((weights.map Prod.snd).sum) 1 then
      match getNum df "transportation_score", getNum df "labor_market_score",
        getNum df "licensing_score", getNum df "policy_score",
        lookupFirst weights "transportation", lookupFirst weights "labor_market",
        lookupFirst weights "licensing", lookupFirst weights "policy" with
      | some ts, some ls, some lic, some ps, some wt, some wl, some wli, some wp =>
        let scenario_reai := compositeOf wt wl wli wp ts ls lic ps
        sensitivityLoop df rest
          (setCol (setCol results (scName ++ "_REAI") (Col.nums scenario_reai))
            (scName ++ "_rank") (Col.ints (rankDescMin scenario_reai)))
      | _, _, _, _, _, _, _, _ => Except.error "KeyError"
    else Except.error ("Weights for " ++ scName ++ " must sum to 1.0")

/-- Sensitivity analysis, `sensitivity_analysis`: build a fresh results frame
with the region identity and the base REAI and rank columns copied from the
input frame (KeyError when any is absent), then run every scenario in order.
The engine's own weights are never consulted. -/
def REAICalculator.sensitivity_analysis (c : REAICalculator) (df : DataFrame)
    (weight_scenarios : List (String × List (String × ℚ))) :
    Except String DataFrame :=
  match lookupFirst df "county", lookupFirst df "REAI", lookupFirst df "REAI_rank" with
  | some county, some baseReai, some baseRank =>
    sensitivityLoop df weight_scenarios
      (setCol (setCol (setCol [] "county" county) "base_REAI" baseReai)
        "base_rank" baseRank)
  | _, _, _ => Except.error "KeyError"

/-- Mean of a column (`describe`'s mean). -/
def colMean (l : List ℚ) : ℚ := l.sum / (l.length : ℚ)

/-- Sample variance of a column with ddof = 1.  The source's `describe`
reports the standard deviation, the square root of this value; the square
root leaves ℚ, so the model records the variance itself (no property proved
below depends on this column's values, only on its presence).  For a single
observation the source yields NaN where the ℚ convention division-by-zero
yields 0; no property depends on that value either. -/
def colVar (l : List ℚ) : ℚ :=
  ((l.map (fun x => (x - colMean l) ^ 2)).sum) / ((l.length : ℚ) - 1)

/-- Insertion into a sorted list, ascending. -/
def insertSorted (x : ℚ) : List ℚ → List ℚ
  | [] => [x]
  | y :: ys => if x ≤ y then x :: y :: ys else y :: insertSorted x ys

/-- Insertion sort, ascending. -/
def sortAsc (l : List ℚ) : List ℚ := l.foldr insertSorted []

/-- Quantile with linear interpolation (numpy's default, used by `describe`):
at fractional position p * (n - 1) of the ascending sort. -/
def quantile (l : List ℚ) (p : ℚ) : ℚ :=
  let s := sortAsc l
  let h := p * ((s.length : ℚ) - 1)
  let f := (⌊h⌋).toNat
  let lo := s.getD f 0
  let hi := s.getD (f + 1) lo
  lo + (h - (f : ℚ)) * (hi - lo)

/-- A statistics frame: one row per score column, one named column per
statistic. -/
structure StatsTable where
  rows : List String
  cols : List (String × List ℚ)
deriving DecidableEq

/-- Model of `df[score_columns].describe().T`: rows are the score columns and
the statistic columns appear in pandas' order count, mean, std, min, 25%,
50%, 75%, max (`count` is the number of observations). -/
def describeT (data : List (String × List ℚ)) : StatsTable :=
  { rows := data.map Prod.fst
    cols := [("count", data.map (fun q => ((q.2.length : ℚ)))),
             ("mean", data.map (fun q => colMean q.2)),
             ("std", data.map (fun q => colVar q.2)),
             ("min", data.map (fun q => seriesMin q.2)),
             ("25%", data.map (fun q => quantile q.2 (1 / 4))),
             ("50%", data.map (fun q => quantile q.2 (1 / 2))),
             ("75%", data.map (fun q => quantile q.2 (3 / 4))),
             ("max", data.map (fun q => seriesMax q.2))] }

/-- The statistic columns selected and returned by `get_summary_statistics`,
in order.  Note that `count` is not selected. -/
def statNames : List String :=
  ["weight", "mean", "std", "min", "25%", "50%", "75%", "max"]

/-- Summary statistics, `get_summary_statistics`: describe the five score
columns (KeyError when any is absent), attach a weight column whose entries
are 1.0 followed by the engine's weights in the dict's own key order (the
assignment fails unless its length matches the five rows), then select the
eight statistic columns of `statNames`, dropping `count`. -/
def REAICalculator.get_summary_statistics (c : REAICalculator) (df : DataFrame) :
    Option StatsTable :=
  (getNum df "REAI").bind fun r =>
  (getNum df "transportation_score").bind fun t =>
  (getNum df "labor_market_score").bind fun l =>
  (getNum df "licensing_score").bind fun li =>
  (getNum df "policy_score").bind fun p =>
  let summary := describeT [("REAI", r), ("transportation_score", t),
    ("labor_market_score", l), ("licensing_score", li), ("policy_score", p)]
  let weightCol : List ℚ := 1 :: c.weights.map Prod.snd
  if weightCol.length = summary.rows.length then
    let withWeight := summary.cols ++ [("weight", weightCol)]
    some { rows := summary.rows
           cols := statNames.filterMap
             (fun nm => (lookupFirst withWeight nm).map (fun v => (nm, v))) }
  else none

/-! Helper lemmas about association lists, series extrema, normalization,
pointwise combination and ranking. -/

lemma lookupFirst_setCol_self {α : Type} (df : List (String × α)) (n : String) (c : α) :
    lookupFirst (setCol df n c) n = some c := by
  induction df with
  | nil => simp [setCol, lookupFirst]
  | cons kv rest ih =>
    obtain ⟨k, v⟩ := kv
    by_cases hk : k = n
    · simp [setCol, lookupFirst, hk]
    · simp [setCol, lookupFirst, hk, ih]

lemma lookupFirst_setCol_ne {α : Type} (df : List (String × α)) (n m : String) (c : α)
    (h : m ≠ n) :
    lookupFirst (setCol df n c) m = lookupFirst df m := by
  induction df with
  | nil => simp [setCol, lookupFirst, Ne.symm h]
  | cons kv rest ih =>
    obtain ⟨k, v⟩ := kv
    by_cases hk : k = n
    · subst hk
      simp [setCol, lookupFirst, Ne.symm h]
    · simp [setCol, lookupFirst, hk, ih]

lemma ratMin_eq_min (a b : ℚ) : ratMin a b = min a b := by
  unfold ratMin
  exact (min_def a b).symm

lemma ratMax_eq_max (a b : ℚ) : ratMax a b = max a b := by
  unfold ratMax
  rw [max_def]
  rcases le_or_lt b a with h | h
  · rw [if_pos h]
    rcases eq_or_lt_of_le h with he | hlt
    · rw [he, if_pos le_rfl]
    · rw [if_neg (not_le.mpr hlt)]
  · rw [if_neg (not_le.mpr h), if_pos h.le]

lemma foldl_ratMin_eq (xs : List ℚ) (a : ℚ) : xs.foldl ratMin a = xs.foldl min a := by
  have h : ratMin = (min : ℚ → ℚ → ℚ) :=
    funext fun x => funext fun y => ratMin_eq_min x y
  rw [h]

lemma foldl_ratMax_eq (xs : List ℚ) (a : ℚ) : xs.foldl ratMax a = xs.foldl max a := by
  have h : ratMax = (max : ℚ → ℚ → ℚ) :=
    funext fun x => funext fun y => ratMax_eq_max x y
  rw [h]

lemma foldl_min_le_start (xs : List ℚ) : ∀ a : ℚ, xs.foldl min a ≤ a := by
  induction xs with
  | nil => intro a; simp
  | cons y ys ih => intro a; exact le_trans (ih (min a y)) (min_le_left a y)

lemma foldl_min_le_mem (xs : List ℚ) : ∀ a x : ℚ, x ∈ xs → xs.foldl min a ≤ x := by
  induction xs with
  | nil => intro a x hx; cases hx
  | cons y ys ih =>
    intro a x hx
    rcases List.mem_cons.mp hx with h1 | h1
    · subst h1; exact le_trans (foldl_min_le_start ys (min a x)) (min_le_right a x)
    · exact ih (min a y) x h1

lemma le_foldl_max_start (xs : List ℚ) : ∀ a : ℚ, a ≤ xs.foldl max a := by
  induction xs with
  | nil => intro a; simp
  | cons y ys ih => intro a; exact le_trans (le_max_left a y) (ih (max a y))

lemma le_foldl_max_mem (xs : List ℚ) : ∀ a x : ℚ, x ∈ xs → x ≤ xs.foldl max a := by
  induction xs with
  | nil => intro a x hx; cases hx
  | cons y ys ih =>
    intro a x hx
    rcases List.mem_cons.mp hx with h1 | h1
    · subst h1; exact le_trans (le_max_right a x) (le_foldl_max_start ys (max a x))
    · exact ih (max a y) x h1

lemma seriesMin_le {x : ℚ} {l : List ℚ} (h : x ∈ l) : seriesMin l ≤ x := by
  cases l with
  | nil => cases h
  | cons y ys =>
    simp only [seriesMin]
    rw [foldl_ratMin_eq]
    rcases List.mem_cons.mp h with h1 | h1
    · subst h1; exact foldl_min_le_start ys x
    · exact foldl_min_le_mem ys y x h1

lemma le_seriesMax {x : ℚ} {l : List ℚ} (h : x ∈ l) : x ≤ seriesMax l := by
  cases l with
  | nil => cases h
  | cons y ys =>
    simp only [seriesMax]
    rw [foldl_ratMax_eq]
    rcases List.mem_cons.mp h with h1 | h1
    · subst h1; exact le_foldl_max_start ys x
    · exact le_foldl_max_mem ys y x h1

lemma foldl_min_const (x : ℚ) (xs : List ℚ) (h : ∀ y ∈ xs, y = x) :
    xs.foldl min x = x := by
  induction xs with
  | nil => rfl
  | cons y ys ih =>
    have hy : y = x := h y (List.mem_cons_self y ys)
    rw [List.foldl_cons, hy, min_self]
    exact ih (fun z hz => h z (List.mem_cons_of_mem _ hz))

lemma foldl_max_const (x : ℚ) (xs : List ℚ) (h : ∀ y ∈ xs, y = x) :
    xs.foldl max x = x := by
  induction xs with
  | nil => rfl
  | cons y ys ih =>
    have hy : y = x := h y (List.mem_cons_self y ys)
    rw [List.foldl_cons, hy, max_self]
    exact ih (fun z hz => h z (List.mem_cons_of_mem _ hz))

lemma norm_val_bounds {mn mx v : ℚ} (h1 : mn ≤ v) (h2 : v ≤ mx) (hlt : mn < mx) :
    0 ≤ (v - mn) / (mx - mn) * 100 ∧ (v - mn) / (mx - mn) * 100 ≤ 100 := by
  have hpos : 0 < mx - mn := sub_pos.mpr hlt
  constructor
  · exact mul_nonneg (div_nonneg (sub_nonneg.mpr h1) hpos.le) (by norm_num)
  · have hle : (v - mn) / (mx - mn) ≤ 1 :=
      (div_le_one hpos).mpr (sub_le_sub_right h2 mn)
    calc (v - mn) / (mx - mn) * 100 ≤ 1 * 100 :=
          mul_le_mul_of_nonneg_right hle (by norm_num)
      _ = 100 := one_mul 100

lemma normalize_score_bounds {s : List ℚ} {rev : Bool} {x : ℚ}
    (hx : x ∈ normalize_score s rev) : 0 ≤ x ∧ x ≤ 100 := by
  cases s with
  | nil => simp [normalize_score] at hx
  | cons a as =>
    rw [normalize_score] at hx
    by_cases hc : seriesMax (a :: as) = seriesMin (a :: as)
    · rw [if_pos hc] at hx
      rcases List.mem_map.mp hx with ⟨v, _, hv⟩
      subst hv
      norm_num
    · rw [if_neg hc] at hx
      have hmm : seriesMin (a :: as) < seriesMax (a :: as) :=
        lt_of_le_of_ne
          (le_trans (seriesMin_le (List.mem_cons_self a as))
            (le_seriesMax (List.mem_cons_self a as)))
          (fun he => hc he.symm)
      cases rev with
      | false =>
        simp only [Bool.false_eq_true, if_false] at hx
        rcases List.mem_map.mp hx with ⟨v, hv, hveq⟩
        subst hveq
        exact norm_val_bounds (seriesMin_le hv) (le_seriesMax hv) hmm
      | true =>
        simp only [if_true] at hx
        rcases List.mem_map.mp hx with ⟨y, hy, hyeq⟩
        rcases List.mem_map.mp hy with ⟨v, hv, hveq⟩
        subst hyeq
        subst hveq
        have hb := norm_val_bounds (seriesMin_le hv) (le_seriesMax hv) hmm
        constructor <;> linarith [hb.1, hb.2]

lemma mem_zipWith2 {α : Type} {f : α → α → α} {as bs : List α} {x : α}
    (hx : x ∈ zipWith2 f as bs) : ∃ a ∈ as, ∃ b ∈ bs, x = f a b := by
  induction as generalizing bs with
  | nil => simp [zipWith2] at hx
  | cons a as ih =>
    cases bs with
    | nil => simp [zipWith2] at hx
    | cons b bs =>
      rw [zipWith2] at hx
      rcases List.mem_cons.mp hx with h1 | h1
      · exact ⟨a, List.mem_cons_self a as, b, List.mem_cons_self b bs, h1⟩
      · obtain ⟨a', ha', b', hb', hx'⟩ := ih h1
        exact ⟨a', List.mem_cons_of_mem _ ha', b', List.mem_cons_of_mem _ hb', hx'⟩

lemma mem_zipWith3 {α : Type} {f : α → α → α → α} {as bs cs : List α} {x : α}
    (hx : x ∈ zipWith3 f as bs cs) :
    ∃ a ∈ as, ∃ b ∈ bs, ∃ c ∈ cs, x = f a b c := by
  induction as generalizing bs cs with
  | nil => simp [zipWith3] at hx
  | cons a as ih =>
    cases bs with
    | nil => simp [zipWith3] at hx
    | cons b bs =>
      cases cs with
      | nil => simp [zipWith3] at hx
      | cons c cs =>
        rw [zipWith3] at hx
        rcases List.mem_cons.mp hx with h1 | h1
        · exact ⟨a, List.mem_cons_self a as, b, List.mem_cons_self b bs,
            c, List.mem_cons_self c cs, h1⟩
        · obtain ⟨a', ha', b', hb', c', hc', hx'⟩ := ih h1
          exact ⟨a', List.mem_cons_of_mem _ ha', b', List.mem_cons_of_mem _ hb',
            c', List.mem_cons_of_mem _ hc', hx'⟩

lemma mem_zipWith4 {α : Type} {f : α → α → α → α → α} {as bs cs ds : List α} {x : α}
    (hx : x ∈ zipWith4 f as bs cs ds) :
    ∃ a ∈ as, ∃ b ∈ bs, ∃ c ∈ cs, ∃ d ∈ ds, x = f a b c d := by
  induction as generalizing bs cs ds with
  | nil => simp [zipWith4] at hx
  | cons a as ih =>
    cases bs with
    | nil => simp [zipWith4] at hx
    | cons b bs =>
      cases cs with
      | nil => simp [zipWith4] at hx
      | cons c cs =>
        cases ds with
        | nil => simp [zipWith4] at hx
        | cons d ds =>
          rw [zipWith4] at hx
          rcases List.mem_cons.mp hx with h1 | h1
          · exact ⟨a, List.mem_cons_self a as, b, List.mem_cons_self b bs,
              c, List.mem_cons_self c cs, d, List.mem_cons_self d ds, h1⟩
          · obtain ⟨a', ha', b', hb', c', hc', d', hd', hx'⟩ := ih h1
            exact ⟨a', List.mem_cons_of_mem _ ha', b', List.mem_cons_of_mem _ hb',
              c', List.mem_cons_of_mem _ hc', d', List.mem_cons_of_mem _ hd', hx'⟩

lemma transportation_score_bounds {df : DataFrame} {ts : List ℚ}
    (h : calculate_transportation_score df = some ts) :
    ∀ x ∈ ts, 0 ≤ x ∧ x ≤ 100 := by
  unfold calculate_transportation_score at h
  rcases Option.bind_eq_some.mp h with ⟨nv, hnv, h⟩
  rcases Option.bind_eq_some.mp h with ⟨ct, hct, h⟩
  rcases Option.bind_eq_some.mp h with ⟨bb, hbb, h⟩
  simp only [Option.some.injEq] at h
  subst h
  intro x hx
  obtain ⟨a, ha, b, hb, c, hc, rfl⟩ := mem_zipWith3 hx
  have Ha := normalize_score_bounds ha
  have Hb := normalize_score_bounds hb
  have Hc := normalize_score_bounds hc
  constructor
  · exact div_nonneg (by linarith [Ha.1, Hb.1, Hc.1]) (by norm_num)
  · exact (div_le_iff₀ (by norm_num : (0:ℚ) < 3)).mpr (by linarith [Ha.2, Hb.2, Hc.2])

lemma labor_market_score_bounds {df : DataFrame} {ls : List ℚ}
    (h : calculate_labor_market_score df = some ls) :
    ∀ x ∈ ls, 0 ≤ x ∧ x ≤ 100 := by
  unfold calculate_labor_market_score at h
  rcases Option.bind_eq_some.mp h with ⟨ur, hur, h⟩
  rcases Option.bind_eq_some.mp h with ⟨eg, heg, h⟩
  rcases Option.bind_eq_some.mp h with ⟨pr, hpr, h⟩
  simp only [Option.some.injEq] at h
  subst h
  intro x hx
  obtain ⟨a, ha, b, hb, c, hc, rfl⟩ := mem_zipWith3 hx
  have Ha := normalize_score_bounds ha
  have Hb := normalize_score_bounds hb
  have Hc := normalize_score_bounds hc
  constructor
  · nlinarith [Ha.1, Hb.1, Hc.1]
  · nlinarith [Ha.2, Hb.2, Hc.2]

lemma licensing_score_bounds {df : DataFrame} {lic : List ℚ}
    (h : calculate_licensing_score df = some lic) :
    ∀ x ∈ lic, 0 ≤ x ∧ x ≤ 100 := by
  unfold calculate_licensing_score at h
  rcases Option.bind_eq_some.mp h with ⟨lb, hlb, h⟩
  simp only [Option.some.injEq] at h
  subst h
  intro x hx
  exact normalize_score_bounds hx

lemma policy_score_bounds {df : DataFrame} {ps : List ℚ}
    (h : calculate_policy_score df = some ps) :
    ∀ x ∈ ps, 0 ≤ x ∧ x ≤ 100 := by
  unfold calculate_policy_score at h
  rcases Option.bind_eq_some.mp h with ⟨btb, hbtb, h⟩
  rcases Option.bind_eq_some.mp h with ⟨fc, hfc, h⟩
  simp only [Option.some.injEq] at h
  subst h
  intro x hx
  obtain ⟨a, ha, b, hb, rfl⟩ := mem_zipWith2 hx
  have Ha := normalize_score_bounds ha
  have Hb := normalize_score_bounds hb
  constructor
  · exact div_nonneg (by linarith [Ha.1, Hb.1]) (by norm_num)
  · exact (div_le_iff₀ (by norm_num : (0:ℚ) < 2)).mpr (by linarith [Ha.2, Hb.2])

lemma composite_bounds {wt wl wli wp : ℚ} {ts ls lic ps : List ℚ}
    (hts : ∀ x ∈ ts, 0 ≤ x ∧ x ≤ 100) (hls : ∀ x ∈ ls, 0 ≤ x ∧ x ≤ 100)
    (hlic : ∀ x ∈ lic, 0 ≤ x ∧ x ≤ 100) (hps : ∀ x ∈ ps, 0 ≤ x ∧ x ≤ 100)
    (hwt : 0 ≤ wt) (hwl : 0 ≤ wl) (hwli : 0 ≤ wli) (hwp : 0 ≤ wp)
    (hsum : wt + wl + wli + wp ≤ 1) :
    ∀ x ∈ compositeOf wt wl wli wp ts ls lic ps, 0 ≤ x ∧ x ≤ 100 := by
  intro x hx
  obtain ⟨t, ht, l, hl, li, hli, p, hp, rfl⟩ := mem_zipWith4 hx
  have Ht := hts t ht
  have Hl := hls l hl
  have Hli := hlic li hli
  have Hp := hps p hp
  constructor
  · exact add_nonneg (add_nonneg (add_nonneg
      (mul_nonneg Ht.1 hwt) (mul_nonneg Hl.1 hwl)) (mul_nonneg Hli.1 hwli))
      (mul_nonneg Hp.1 hwp)
  · have h1 : t * wt ≤ 100 * wt := mul_le_mul_of_nonneg_right Ht.2 hwt
    have h2 : l * wl ≤ 100 * wl := mul_le_mul_of_nonneg_right Hl.2 hwl
    have h3 : li * wli ≤ 100 * wli := mul_le_mul_of_nonneg_right Hli.2 hwli
    have h4 : p * wp ≤ 100 * wp := mul_le_mul_of_nonneg_right Hp.2 hwp
    linarith [h1, h2, h3, h4]

lemma rankDescMin_length (v : List ℚ) : (rankDescMin v).length = v.length := by
  simp [rankDescMin]

lemma countGreater_anti {x x' : ℚ} (h : x' ≤ x) (v : List ℚ) :
    countGreater x v ≤ countGreater x' v := by
  induction v with
  | nil => exact le_refl 0
  | cons y ys ih =>
    by_cases h1 : x < y
    · have h2 : x' < y := lt_of_le_of_lt h h1
      simp only [countGreater, if_pos h1, if_pos h2]
      omega
    · simp only [countGreater, if_neg h1]
      split
      · omega
      · omega

lemma rankDescMin_getD {v : List ℚ} {i : Nat} (hi : i < v.length) :
    (rankDescMin v).getD i 0 = 1 + (countGreater (v.getD i 0) v : ℤ) := by
  have hi' : i < (rankDescMin v).length := by
    rw [rankDescMin_length]; exact hi
  rw [List.getD_eq_getElem _ _ hi', List.getD_eq_getElem _ _ hi]
  simp [rankDescMin]

lemma rank_le_of_gt {v : List ℚ} {i j : Nat} (hi : i < v.length) (hj : j < v.length)
    (hgt : v.getD j 0 < v.getD i 0) :
    (rankDescMin v).getD i 0 ≤ (rankDescMin v).getD j 0 := by
  rw [rankDescMin_getD hi, rankDescMin_getD hj]
  have hc : countGreater (v.getD i 0) v ≤ countGreater (v.getD j 0) v :=
    countGreater_anti (le_of_lt hgt) v
  have hc' : (countGreater (v.getD i 0) v : ℤ) ≤ (countGreater (v.getD j 0) v : ℤ) := by
    exact_mod_cast hc
  linarith

lemma rank_eq_of_eq {v : List ℚ} {i j : Nat} (hi : i < v.length) (hj : j < v.length)
    (heq : v.getD i 0 = v.getD j 0) :
    (rankDescMin v).getD i 0 = (rankDescMin v).getD j 0 := by
  rw [rankDescMin_getD hi, rankDescMin_getD hj, heq]

lemma calculate_reai_spec {c : REAICalculator} {df df' : DataFrame}
    (h : c.calculate_reai df = some df') :
    ∃ ts ls lic ps wt wl wli wp,
      calculate_transportation_score df = some ts ∧
      (∃ d, calculate_labor_market_score d = some ls) ∧
      (∃ d, calculate_licensing_score d = some lic) ∧
      (∃ d, calculate_policy_score d = some ps) ∧
      lookupFirst c.weights "transportation" = some wt ∧
      lookupFirst c.weights "labor_market" = some wl ∧
      lookupFirst c.weights "licensing" = some wli ∧
      lookupFirst c.weights "policy" = some wp ∧
      lookupFirst df' "transportation_score" = some (Col.nums ts) ∧
      lookupFirst df' "labor_market_score" = some (Col.nums ls) ∧
      lookupFirst df' "licensing_score" = some (Col.nums lic) ∧
      lookupFirst df' "policy_score" = some (Col.nums ps) ∧
      lookupFirst df' "REAI" = some (Col.nums (compositeOf wt wl wli wp ts ls lic ps)) ∧
      lookupFirst df' "REAI_rank" =
        some (Col.ints (rankDescMin (compositeOf wt wl wli wp ts ls lic ps))) ∧
      (∀ nm, nm ∉ derivedNames → lookupFirst df' nm = lookupFirst df nm) := by
  unfold REAICalculator.calculate_reai at h
  rcases Option.bind_eq_some.mp h with ⟨ts, hts, h⟩
  rcases Option.bind_eq_some.mp h with ⟨ls, hls, h⟩
  rcases Option.bind_eq_some.mp h with ⟨lic, hlic, h⟩
  rcases Option.bind_eq_some.mp h with ⟨ps, hps, h⟩
  rcases Option.bind_eq_some.mp h with ⟨wt, hwt, h⟩
  rcases Option.bind_eq_some.mp h with ⟨wl, hwl, h⟩
  rcases Option.bind_eq_some.mp h with ⟨wli, hwli, h⟩
  rcases Option.bind_eq_some.mp h with ⟨wp, hwp, h⟩
  simp only [Option.some.injEq] at h
  subst h
  refine ⟨ts, ls, lic, ps, wt, wl, wli, wp, hts, ⟨_, hls⟩, ⟨_, hlic⟩, ⟨_, hps⟩,
    hwt, hwl, hwli, hwp, ?_, ?_, ?_, ?_, ?_, ?_, ?_⟩
  · rw [lookupFirst_setCol_ne _ _ _ _ (by decide), lookupFirst_setCol_ne _ _ _ _ (by decide),
      lookupFirst_setCol_ne _ _ _ _ (by decide), lookupFirst_setCol_ne _ _ _ _ (by decide),
      lookupFirst_setCol_ne _ _ _ _ (by decide)]
    exact lookupFirst_setCol_self df _ _
  · rw [lookupFirst_setCol_ne _ _ _ _ (by decide), lookupFirst_setCol_ne _ _ _ _ (by decide),
      lookupFirst_setCol_ne _ _ _ _ (by decide), lookupFirst_setCol_ne _ _ _ _ (by decide)]
    exact lookupFirst_setCol_self _ _ _
  · rw [lookupFirst_setCol_ne _ _ _ _ (by decide), lookupFirst_setCol_ne _ _ _ _ (by decide),
      lookupFirst_setCol_ne _ _ _ _ (by decide)]
    exact lookupFirst_setCol_self _ _ _
  · rw [lookupFirst_setCol_ne _ _ _ _ (by decide), lookupFirst_setCol_ne _ _ _ _ (by decide)]
    exact lookupFirst_setCol_self _ _ _
  · rw [lookupFirst_setCol_ne _ _ _ _ (by decide)]
    exact lookupFirst_setCol_self _ _ _
  · exact lookupFirst_setCol_self _ _ _
  · intro nm hnm
    simp only [derivedNames, List.mem_cons, List.not_mem_nil, or_false] at hnm
    push_neg at hnm
    obtain ⟨h1, h2, h3, h4, h5, h6⟩ := hnm
    rw [lookupFirst_setCol_ne _ _ _ _ h6, lookupFirst_setCol_ne _ _ _ _ h5,
      lookupFirst_setCol_ne _ _ _ _ h4, lookupFirst_setCol_ne _ _ _ _ h3,
      lookupFirst_setCol_ne _ _ _ _ h2, lookupFirst_setCol_ne _ _ _ _ h1]

/-! Concrete data used by witnesses and counterexamples. -/

/-- Engine with the default weight configuration. -/
def defCalc : REAICalculator := ⟨default_weights⟩

/-- Small two-county table carrying every required raw indicator. -/
def dfA : DataFrame :=
  [("county", Col.strs ["Wake", "Durham"]),
   ("pct_no_vehicle", Col.nums [5, 10]),
   ("avg_commute_time", Col.nums [20, 30]),
   ("pct_broadband", Col.nums [90, 70]),
   ("unemployment_rate", Col.nums [4, 6]),
   ("employment_growth", Col.nums [1, 3]),
   ("poverty_rate", Col.nums [10, 20]),
   ("licensing_burden_index", Col.nums [65, 65]),
   ("ban_the_box_score", Col.nums [75, 75]),
   ("fair_chance_score", Col.nums [60, 80])]

/-- The augmented table produced by running calculate on `dfA` with the
default weights (transportation 100/0, labor 70/30, licensing 50/50,
policy 25/75, REAI 68.25/31.75, ranks 1/2). -/
def dfA' : DataFrame :=
  [("county", Col.strs ["Wake", "Durham"]),
   ("pct_no_vehicle", Col.nums [5, 10]),
   ("avg_commute_time", Col.nums [20, 30]),
   ("pct_broadband", Col.nums [90, 70]),
   ("unemployment_rate", Col.nums [4, 6]),
   ("employment_growth", Col.nums [1, 3]),
   ("poverty_rate", Col.nums [10, 20]),
   ("licensing_burden_index", Col.nums [65, 65]),
   ("ban_the_box_score", Col.nums [75, 75]),
   ("fair_chance_score", Col.nums [60, 80]),
   ("transportation_score", Col.nums [100, 0]),
   ("labor_market_score", Col.nums [70, 30]),
   ("licensing_score", Col.nums [50, 50]),
   ("policy_score", Col.nums [25, 75]),
   ("REAI", Col.nums [273 / 4, 127 / 4]),
   ("REAI_rank", Col.ints [1, 2])]

lemma ratAbs_eq_abs (x : ℚ) : ratAbs x = |x| := by
  unfold ratAbs
  by_cases h : x < 0
  · rw [if_pos h, abs_of_neg h]
  · rw [if_neg h, abs_of_nonneg (not_lt.mp h)]

lemma isclose_one_iff (a : ℚ) :
    isclose a 1 = true ↔ |a - 1| ≤ 1 / 100000000 + 1 / 100000 := by
  unfold isclose
  rw [decide_eq_true_eq, ratAbs_eq_abs, ratAbs_eq_abs, abs_one]
  norm_num

/-- C1 (amended): engine construction over the four components succeeds
exactly when the weight sum is within np.isclose's default tolerance of 1.0,
that is |sum - 1| ≤ 1e-8 + 1e-5 ≈ 1.00001e-5 (not ~1e-9), and fails with the
configuration error otherwise; validation runs at construction time, before
any scoring. -/
theorem c1_tolerance_amended (wt wl wli wp : ℚ) :
    REAICalculator.init (some [("transportation", wt), ("labor_market", wl),
      ("licensing", wli), ("policy", wp)]) =
      (if |wt + wl + wli + wp - 1| ≤ 1 / 100000000 + 1 / 100000 then
        Except.ok ⟨[("transportation", wt), ("labor_market", wl),
          ("licensing", wli), ("policy", wp)]⟩
      else Except.error "Weights must sum to 1.0") := by
  have hs : (([("transportation", wt), ("labor_market", wl), ("licensing", wli),
      ("policy", wp)].map Prod.snd).sum) = wt + wl + wli + wp := by
    simp only [List.map_cons, List.map_nil, List.sum_cons, List.sum_nil]
    ring
  simp only [REAICalculator.init, List.isEmpty_cons, Bool.false_eq_true, if_false]
  rw [hs]
  by_cases hcond : |wt + wl + wli + wp - 1| ≤ 1 / 100000000 + 1 / 100000
  · rw [if_pos hcond, if_pos ((isclose_one_iff _).mpr hcond)]
  · rw [if_neg hcond, if_neg (fun hc => hcond ((isclose_one_iff _).mp hc))]

/-- C1 counterexample: the weight set (0.30 + 1e-6, 0.35, 0.20, 0.15) sums to
1.000001, which differs from 1.0 by far more than the claimed ~1e-9 tolerance,
yet engine construction succeeds; the code's tolerance is np.isclose's default
of about 1e-5. -/
theorem c1_claim_counterexample :
    REAICalculator.init (some [("transportation", 30 / 100 + 1 / 1000000),
      ("labor_market", 35 / 100), ("licensing", 20 / 100), ("policy", 15 / 100)]) =
      Except.ok ⟨[("transportation", 30 / 100 + 1 / 1000000),
        ("labor_market", 35 / 100), ("licensing", 20 / 100), ("policy", 15 / 100)]⟩ ∧
    ¬ (|((30 : ℚ) / 100 + 1 / 1000000 + 35 / 100 + 20 / 100 + 15 / 100) - 1| ≤
        1 / 1000000000) := by
  constructor
  · simp only [REAICalculator.init, List.isEmpty_cons, Bool.false_eq_true, if_false]
    rw [if_pos ((isclose_one_iff _).mpr (by
      simp only [List.map_cons, List.map_nil, List.sum_cons, List.sum_nil]
      rw [abs_le]
      constructor <;> norm_num))]
  · rw [show ((30 : ℚ) / 100 + 1 / 1000000 + 35 / 100 + 20 / 100 + 15 / 100) - 1 =
      1 / 1000000 by norm_num]
    rw [abs_of_pos (by norm_num)]
    norm_num

/-- C9: constructing the engine with an empty weight mapping does not fail:
the empty dict is falsy in Python, so the constructor silently substitutes the
default weights (0.30 / 0.35 / 0.20 / 0.15); a missing mapping behaves the
same way; the empty set's own sum 0 would not have passed validation. -/
theorem c9_empty_weights_default :
    REAICalculator.init (some []) = Except.ok ⟨default_weights⟩ ∧
    REAICalculator.init none = Except.ok ⟨default_weights⟩ ∧
    isclose ((([] : List (String × ℚ)).map Prod.snd).sum) 1 = false := by
  have hdef : isclose ((default_weights.map Prod.snd).sum) 1 = true :=
    (isclose_one_iff _).mpr (by
      simp only [default_weights, List.map_cons, List.map_nil, List.sum_cons, List.sum_nil]
      rw [abs_le]
      constructor <;> norm_num)
  refine ⟨?_, ?_, ?_⟩
  · simp only [REAICalculator.init, List.isEmpty_nil, if_true]
    rw [if_pos hdef]
  · simp only [REAICalculator.init]
    rw [if_pos hdef]
  · simp only [List.map_nil, List.sum_nil]
    rw [← Bool.not_eq_true, isclose_one_iff]
    rw [abs_le]
    push_neg
    intro h
    norm_num at h

/-- C5: on a constant series (min = max) normalize returns 50.0 for every
element, for either value of reverse; the constant branch returns before the
division, so no division-by-zero-class error can arise (the model is total on
this branch by construction, mirroring the source's early return). -/
theorem c5_constant_normalize (l : List ℚ) (rev : Bool)
    (h : ∀ x ∈ l, ∀ y ∈ l, x = y) :
    normalize_score l rev = l.map (fun _ => 50) := by
  cases l with
  | nil => rfl
  | cons a as =>
    have hconst : ∀ y ∈ as, y = a := fun y hy =>
      h y (List.mem_cons_of_mem _ hy) a (List.mem_cons_self a as)
    have hmin : seriesMin (a :: as) = a := by
      simp only [seriesMin]
      rw [foldl_ratMin_eq]
      exact foldl_min_const a as hconst
    have hmax : seriesMax (a :: as) = a := by
      simp only [seriesMax]
      rw [foldl_ratMax_eq]
      exact foldl_max_const a as hconst
    simp only [normalize_score]
    rw [hmin, hmax, if_pos rfl]

/-- Witness for C5: the constant series [7, 7, 7], reversed, maps to all 50. -/
theorem c5_witness : normalize_score [(7 : ℚ), 7, 7] true = [50, 50, 50] :=
  (c5_constant_normalize [(7 : ℚ), 7, 7] true (by decide)).trans rfl

/-- C6: on a non-constant series the reversed normalization is, pointwise,
100 minus the direct normalization: reversal is applied after min-max scaling,
an exact reflection about 50. -/
theorem c6_reverse_reflection (l : List ℚ)
    (h : ∃ x ∈ l, ∃ y ∈ l, x ≠ y) :
    normalize_score l true = (normalize_score l false).map (fun s => 100 - s) := by
  obtain ⟨x, hx, y, hy, hxy⟩ := h
  cases l with
  | nil => cases hx
  | cons a as =>
    have hne : seriesMax (a :: as) ≠ seriesMin (a :: as) := by
      intro he
      apply hxy
      have h1 : seriesMin (a :: as) ≤ x := seriesMin_le hx
      have h2 : x ≤ seriesMax (a :: as) := le_seriesMax hx
      have h3 : seriesMin (a :: as) ≤ y := seriesMin_le hy
      have h4 : y ≤ seriesMax (a :: as) := le_seriesMax hy
      linarith
    simp only [normalize_score]
    rw [if_neg hne, if_neg hne]
    simp

/-- Witness for C6 at the non-constant series [1, 3]. -/
theorem c6_witness :
    normalize_score [(1 : ℚ), 3] true =
      (normalize_score [(1 : ℚ), 3] false).map (fun s => 100 - s) :=
  c6_reverse_reflection [(1 : ℚ), 3] (by decide)

lemma getNum_of_lookup {df : DataFrame} {n : String} {l : List ℚ}
    (h : lookupFirst df n = some (Col.nums l)) : getNum df n = some l := by
  unfold getNum
  rw [h]

lemma string_append_right_ne (s : String) {t u : String} (h : t ≠ u) :
    s ++ t ≠ s ++ u := by
  intro he
  apply h
  have hd := congrArg String.data he
  rw [String.data_append, String.data_append] at hd
  exact String.ext (List.append_cancel_left hd)

/-- C2: the REAI_rank column produced by calculate is the descending
minimum-method (competition) ranking of the REAI column: strictly greater
composites never rank worse, equal composites share a rank, and tied groups
leave gaps after them, e.g. composites [90, 90, 80] rank as [1, 1, 3]. -/
theorem c2_rank_consistency (c : REAICalculator) (df df' : DataFrame)
    (h : c.calculate_reai df = some df') :
    (∃ r : List ℚ,
      lookupFirst df' "REAI" = some (Col.nums r) ∧
      lookupFirst df' "REAI_rank" = some (Col.ints (rankDescMin r)) ∧
      (∀ i j : Nat, i < r.length → j < r.length →
        ((r.getD j 0 < r.getD i 0) →
          (rankDescMin r).getD i 0 ≤ (rankDescMin r).getD j 0) ∧
        (r.getD i 0 = r.getD j 0 →
          (rankDescMin r).getD i 0 = (rankDescMin r).getD j 0))) ∧
    rankDescMin [90, 90, 80] = [1, 1, 3] := by
  obtain ⟨ts, ls, lic, ps, wt, wl, wli, wp, _, _, _, _, _, _, _, _,
    _, _, _, _, hcR, hcRk, _⟩ := calculate_reai_spec h
  refine ⟨⟨_, hcR, hcRk, ?_⟩, ?_⟩
  · intro i j hi hj
    exact ⟨fun hgt => rank_le_of_gt hi hj hgt, fun heq => rank_eq_of_eq hi hj heq⟩
  · norm_num [rankDescMin, countGreater]

/-- C10 (amended): calculate hands back the caller's table augmented in
place: the six derived columns are attached (overwriting any pre-existing
column bearing a derived name), and every input column whose name is not one
of the six derived names keeps its values unchanged. -/
theorem c10_frame_preserved (c : REAICalculator) (df df' : DataFrame)
    (h : c.calculate_reai df = some df') :
    (∀ nm, nm ∉ derivedNames → lookupFirst df' nm = lookupFirst df nm) ∧
    (∀ nm ∈ derivedNames, (lookupFirst df' nm).isSome = true) := by
  obtain ⟨ts, ls, lic, ps, wt, wl, wli, wp, _, _, _, _, _, _, _, _,
    hcT, hcL, hcLi, hcP, hcR, hcRk, hpres⟩ := calculate_reai_spec h
  refine ⟨hpres, ?_⟩
  intro nm hnm
  simp only [derivedNames, List.mem_cons, List.not_mem_nil, or_false] at hnm
  rcases hnm with rfl | rfl | rfl | rfl | rfl | rfl
  · rw [hcT]; rfl
  · rw [hcL]; rfl
  · rw [hcLi]; rfl
  · rw [hcP]; rfl
  · rw [hcR]; rfl
  · rw [hcRk]; rfl

/-- C3 (amended): whenever calculate succeeds, each of the four component
score columns lies in [0, 100] at every region; the composite REAI column
lies in [0, 100] provided the engine's four weights are nonnegative and sum
to at most 1 (validation alone does not guarantee this: it only constrains
the sum to be close to 1 and admits negative weights). -/
theorem c3_scores_bounded_amended (c : REAICalculator) (df df' : DataFrame)
    (h : c.calculate_reai df = some df') :
    (∀ nm ∈ ["transportation_score", "labor_market_score", "licensing_score",
        "policy_score"],
      ∀ s, getNum df' nm = some s → ∀ x ∈ s, 0 ≤ x ∧ x ≤ 100) ∧
    (∀ wt wl wli wp : ℚ,
      lookupFirst c.weights "transportation" = some wt →
      lookupFirst c.weights "labor_market" = some wl →
      lookupFirst c.weights "licensing" = some wli →
      lookupFirst c.weights "policy" = some wp →
      0 ≤ wt → 0 ≤ wl → 0 ≤ wli → 0 ≤ wp → wt + wl + wli + wp ≤ 1 →
      ∀ s, getNum df' "REAI" = some s → ∀ x ∈ s, 0 ≤ x ∧ x ≤ 100) := by
  obtain ⟨ts, ls, lic, ps, wt, wl, wli, wp, hTs, hLs, hLi, hPs,
    hwt, hwl, hwli, hwp, hcT, hcL, hcLi, hcP, hcR, _, _⟩ := calculate_reai_spec h
  obtain ⟨dL, hLs⟩ := hLs
  obtain ⟨dLi, hLi⟩ := hLi
  obtain ⟨dP, hPs⟩ := hPs
  constructor
  · intro nm hnm s hs x hx
    simp only [List.mem_cons, List.not_mem_nil, or_false] at hnm
    rcases hnm with rfl | rfl | rfl | rfl
    · rw [getNum_of_lookup hcT, Option.some.injEq] at hs
      subst hs
      exact transportation_score_bounds hTs x hx
    · rw [getNum_of_lookup hcL, Option.some.injEq] at hs
      subst hs
      exact labor_market_score_bounds hLs x hx
    · rw [getNum_of_lookup hcLi, Option.some.injEq] at hs
      subst hs
      exact licensing_score_bounds hLi x hx
    · rw [getNum_of_lookup hcP, Option.some.injEq] at hs
      subst hs
      exact policy_score_bounds hPs x hx
  · intro wt' wl' wli' wp' hwt' hwl' hwli' hwp' h0t h0l h0li h0p hsum s hs x hx
    rw [hwt, Option.some.injEq] at hwt'
    rw [hwl, Option.some.injEq] at hwl'
    rw [hwli, Option.some.injEq] at hwli'
    rw [hwp, Option.some.injEq] at hwp'
    subst hwt'
    subst hwl'
    subst hwli'
    subst hwp'
    rw [getNum_of_lookup hcR, Option.some.injEq] at hs
    subst hs
    exact composite_bounds (transportation_score_bounds hTs)
      (labor_market_score_bounds hLs) (licensing_score_bounds hLi)
      (policy_score_bounds hPs) h0t h0l h0li h0p hsum x hx

/-- C4: after calculate has run, a sensitivity scenario whose weight set is
the engine's own weight mapping reproduces the base REAI column and the base
REAI_rank column exactly, whatever the scenario is named. -/
theorem c4_base_scenario (c : REAICalculator) (df df' : DataFrame) (nm : String)
    (h : c.calculate_reai df = some df')
    (hcounty : (lookupFirst df "county").isSome = true)
    (hgood : isclose ((c.weights.map Prod.snd).sum) 1 = true) :
    ∃ res, c.sensitivity_analysis df' [(nm, c.weights)] = Except.ok res ∧
      lookupFirst res (nm ++ "_REAI") = lookupFirst df' "REAI" ∧
      lookupFirst res (nm ++ "_rank") = lookupFirst df' "REAI_rank" := by
  obtain ⟨ts, ls, lic, ps, wt, wl, wli, wp, _, _, _, _, hwt, hwl, hwli, hwp,
    hcT, hcL, hcLi, hcP, hcR, hcRk, hpres⟩ := calculate_reai_spec h
  obtain ⟨cc, hcc⟩ := Option.isSome_iff_exists.mp hcounty
  have hcounty' : lookupFirst df' "county" = some cc := by
    rw [hpres "county" (by decide), hcc]
  simp only [REAICalculator.sensitivity_analysis, hcounty', hcR, hcRk]
  simp only [sensitivityLoop, hgood, if_true, getNum_of_lookup hcT,
    getNum_of_lookup hcL, getNum_of_lookup hcLi, getNum_of_lookup hcP,
    hwt, hwl, hwli, hwp]
  have hne : nm ++ "_REAI" ≠ nm ++ "_rank" :=
    string_append_right_ne nm (by decide)
  refine ⟨_, rfl, ?_, ?_⟩
  · rw [lookupFirst_setCol_ne _ _ _ _ hne, lookupFirst_setCol_self]
  · rw [lookupFirst_setCol_self]

lemma sensitivityLoop_error (df : DataFrame)
    (pre rest : List (String × List (String × ℚ))) (nm : String)
    (w : List (String × ℚ)) (results : DataFrame)
    (h4 : (getNum df "transportation_score").isSome = true)
    (h5 : (getNum df "labor_market_score").isSome = true)
    (h6 : (getNum df "licensing_score").isSome = true)
    (h7 : (getNum df "policy_score").isSome = true)
    (hpre : ∀ s ∈ pre, isclose ((s.2.map Prod.snd).sum) 1 = true ∧
        (lookupFirst s.2 "transportation").isSome = true ∧
        (lookupFirst s.2 "labor_market").isSome = true ∧
        (lookupFirst s.2 "licensing").isSome = true ∧
        (lookupFirst s.2 "policy").isSome = true)
    (hbad : isclose ((w.map Prod.snd).sum) 1 = false) :
    sensitivityLoop df (pre ++ (nm, w) :: rest) results =
      Except.error ("Weights for " ++ nm ++ " must sum to 1.0") := by
  induction pre generalizing results with
  | nil =>
    simp only [List.nil_append, sensitivityLoop, hbad, Bool.false_eq_true, if_false]
  | cons s pre' ih =>
    obtain ⟨hg, ht1, ht2, ht3, ht4⟩ := hpre s (List.mem_cons_self s pre')
    obtain ⟨ts, hts⟩ := Option.isSome_iff_exists.mp h4
    obtain ⟨ls, hls⟩ := Option.isSome_iff_exists.mp h5
    obtain ⟨lic, hlic⟩ := Option.isSome_iff_exists.mp h6
    obtain ⟨ps, hps⟩ := Option.isSome_iff_exists.mp h7
    obtain ⟨w1, hw1⟩ := Option.isSome_iff_exists.mp ht1
    obtain ⟨w2, hw2⟩ := Option.isSome_iff_exists.mp ht2
    obtain ⟨w3, hw3⟩ := Option.isSome_iff_exists.mp ht3
    obtain ⟨w4, hw4⟩ := Option.isSome_iff_exists.mp ht4
    obtain ⟨s1, s2⟩ := s
    simp only at hg hw1 hw2 hw3 hw4
    simp only [List.cons_append, sensitivityLoop, hg, if_true, hts, hls, hlic,
      hps, hw1, hw2, hw3, hw4]
    exact ih _ (fun s hs => hpre s (List.mem_cons_of_mem _ hs))

/-- C7: when the scenario mapping contains a scenario whose weight set does
not sum to 1.0 within tolerance (and the scenarios before it validate and
evaluate), sensitivity analysis fails with a ValueError naming that offending
scenario, and no results table is returned to the caller. -/
theorem c7_scenario_validation (c : REAICalculator) (df : DataFrame)
    (pre rest : List (String × List (String × ℚ))) (nm : String)
    (w : List (String × ℚ))
    (h1 : (lookupFirst df "county").isSome = true)
    (h2 : (lookupFirst df "REAI").isSome = true)
    (h3 : (lookupFirst df "REAI_rank").isSome = true)
    (h4 : (getNum df "transportation_score").isSome = true)
    (h5 : (getNum df "labor_market_score").isSome = true)
    (h6 : (getNum df "licensing_score").isSome = true)
    (h7 : (getNum df "policy_score").isSome = true)
    (hpre : ∀ s ∈ pre, isclose ((s.2.map Prod.snd).sum) 1 = true ∧
        (lookupFirst s.2 "transportation").isSome = true ∧
        (lookupFirst s.2 "labor_market").isSome = true ∧
        (lookupFirst s.2 "licensing").isSome = true ∧
        (lookupFirst s.2 "policy").isSome = true)
    (hbad : isclose ((w.map Prod.snd).sum) 1 = false) :
    c.sensitivity_analysis df (pre ++ (nm, w) :: rest) =
      Except.error ("Weights for " ++ nm ++ " must sum to 1.0") := by
  obtain ⟨cc, hcc⟩ := Option.isSome_iff_exists.mp h1
  obtain ⟨rr, hrr⟩ := Option.isSome_iff_exists.mp h2
  obtain ⟨kk, hkk⟩ := Option.isSome_iff_exists.mp h3
  simp only [REAICalculator.sensitivity_analysis, hcc, hrr, hkk]
  exact sensitivityLoop_error df pre rest nm w _ h4 h5 h6 h7 hpre hbad

/-- C8 (amended): for an engine whose weight mapping lists the four
components in the canonical order (as the default does), summary statistics
returns one row per score column (composite first) with the statistic
columns weight, mean, std, min, 25%, 50%, 75%, max in that order — count is
computed internally by describe but dropped by the final column selection —
and the leading weight column is 1.0 followed by the four configured
weights; for a mapping in any other key order the weight column follows the
mapping's own order and can misalign with the component rows. -/
theorem c8_summary_amended (c : REAICalculator) (df df' : DataFrame) (wt wl wli wp : ℚ)
    (hw : c.weights = [("transportation", wt), ("labor_market", wl),
      ("licensing", wli), ("policy", wp)])
    (h : c.calculate_reai df = some df') :
    ∃ t, c.get_summary_statistics df' = some t ∧
      t.rows = ["REAI", "transportation_score", "labor_market_score",
        "licensing_score", "policy_score"] ∧
      t.cols.map Prod.fst = statNames ∧
      lookupFirst t.cols "weight" = some [1, wt, wl, wli, wp] := by
  obtain ⟨ts, ls, lic, ps, wt', wl', wli', wp', _, _, _, _, hwt, hwl, hwli, hwp,
    hcT, hcL, hcLi, hcP, hcR, _, _⟩ := calculate_reai_spec h
  rw [hw] at hwt hwl hwli hwp
  simp [lookupFirst] at hwt hwl hwli hwp
  subst hwt
  subst hwl
  subst hwli
  subst hwp
  have hstats : c.get_summary_statistics df' = some
    { rows := ["REAI", "transportation_score", "labor_market_score",
        "licensing_score", "policy_score"],
      cols :=
        [("weight", [1, wt, wl, wli, wp]),
         ("mean", [colMean (compositeOf wt wl wli wp ts ls lic ps),
            colMean ts, colMean ls, colMean lic, colMean ps]),
         ("std", [colVar (compositeOf wt wl wli wp ts ls lic ps),
            colVar ts, colVar ls, colVar lic, colVar ps]),
         ("min", [seriesMin (compositeOf wt wl wli wp ts ls lic ps),
            seriesMin ts, seriesMin ls, seriesMin lic, seriesMin ps]),
         ("25%", [quantile (compositeOf wt wl wli wp ts ls lic ps) (1 / 4),
            quantile ts (1 / 4), quantile ls (1 / 4), quantile lic (1 / 4),
            quantile ps (1 / 4)]),
         ("50%", [quantile (compositeOf wt wl wli wp ts ls lic ps) (1 / 2),
            quantile ts (1 / 2), quantile ls (1 / 2), quantile lic (1 / 2),
            quantile ps (1 / 2)]),
         ("75%", [quantile (compositeOf wt wl wli wp ts ls lic ps) (3 / 4),
            quantile ts (3 / 4), quantile ls (3 / 4), quantile lic (3 / 4),
            quantile ps (3 / 4)]),
         ("max", [seriesMax (compositeOf wt wl wli wp ts ls lic ps),
            seriesMax ts, seriesMax ls, seriesMax lic, seriesMax ps])] } := by
    simp [REAICalculator.get_summary_statistics, getNum_of_lookup hcR,
      getNum_of_lookup hcT, getNum_of_lookup hcL, getNum_of_lookup hcLi,
      getNum_of_lookup hcP, hw, describeT, statNames, lookupFirst]
  refine ⟨_, hstats, rfl, by simp [statNames], by simp [lookupFirst]⟩

/-! Concrete evaluation of the pipeline on `dfA`, staged per step. -/

/-- Frame `dfA` after attaching the transportation score column. -/
def dA1 : DataFrame := dfA ++ [("transportation_score", Col.nums [100, 0])]

/-- Frame `dA1` after attaching the labor market score column. -/
def dA2 : DataFrame := dA1 ++ [("labor_market_score", Col.nums [70, 30])]

/-- Frame `dA2` after attaching the licensing score column. -/
def dA3 : DataFrame := dA2 ++ [("licensing_score", Col.nums [50, 50])]

/-- Frame `dA3` after attaching the policy score column. -/
def dA4 : DataFrame := dA3 ++ [("policy_score", Col.nums [25, 75])]

lemma trans_evalA : calculate_transportation_score dfA = some [100, 0] := by
  have h1 : getNum dfA "pct_no_vehicle" = some [5, 10] := by
    simp [getNum, lookupFirst, dfA]
  have h2 : getNum dfA "avg_commute_time" = some [20, 30] := by
    simp [getNum, lookupFirst, dfA]
  have h3 : getNum dfA "pct_broadband" = some [90, 70] := by
    simp [getNum, lookupFirst, dfA]
  rw [calculate_transportation_score, h1, h2, h3]
  norm_num [normalize_score, seriesMin, seriesMax, ratMin, ratMax, zipWith3]

lemma setColA1 : setCol dfA "transportation_score" (Col.nums [100, 0]) = dA1 := by
  simp [setCol, dfA, dA1]

lemma labor_evalA : calculate_labor_market_score dA1 = some [70, 30] := by
  have h1 : getNum dA1 "unemployment_rate" = some [4, 6] := by
    simp [getNum, lookupFirst, dA1, dfA]
  have h2 : getNum dA1 "employment_growth" = some [1, 3] := by
    simp [getNum, lookupFirst, dA1, dfA]
  have h3 : getNum dA1 "poverty_rate" = some [10, 20] := by
    simp [getNum, lookupFirst, dA1, dfA]
  rw [calculate_labor_market_score, h1, h2, h3]
  norm_num [normalize_score, seriesMin, seriesMax, ratMin, ratMax, zipWith3]

lemma setColA2 : setCol dA1 "labor_market_score" (Col.nums [70, 30]) = dA2 := by
  simp [setCol, dA1, dfA, dA2]

lemma lic_evalA : calculate_licensing_score dA2 = some [50, 50] := by
  have h1 : getNum dA2 "licensing_burden_index" = some [65, 65] := by
    simp [getNum, lookupFirst, dA2, dA1, dfA]
  rw [calculate_licensing_score, h1]
  norm_num [normalize_score, seriesMin, seriesMax, ratMin, ratMax]

lemma setColA3 : setCol dA2 "licensing_score" (Col.nums [50, 50]) = dA3 := by
  simp [setCol, dA2, dA1, dfA, dA3]

lemma policy_evalA : calculate_policy_score dA3 = some [25, 75] := by
  have h1 : getNum dA3 "ban_the_box_score" = some [75, 75] := by
    simp [getNum, lookupFirst, dA3, dA2, dA1, dfA]
  have h2 : getNum dA3 "fair_chance_score" = some [60, 80] := by
    simp [getNum, lookupFirst, dA3, dA2, dA1, dfA]
  rw [calculate_policy_score, h1, h2]
  norm_num [normalize_score, seriesMin, seriesMax, ratMin, ratMax, zipWith2]

lemma setColA4 : setCol dA3 "policy_score" (Col.nums [25, 75]) = dA4 := by
  simp [setCol, dA3, dA2, dA1, dfA, dA4]

lemma calcA_eval (c : REAICalculator) (wt wl wli wp : ℚ)
    (hwt : lookupFirst c.weights "transportation" = some wt)
    (hwl : lookupFirst c.weights "labor_market" = some wl)
    (hwli : lookupFirst c.weights "licensing" = some wli)
    (hwp : lookupFirst c.weights "policy" = some wp) :
    c.calculate_reai dfA = some (dA4 ++
      [("REAI", Col.nums [100 * wt + 70 * wl + 50 * wli + 25 * wp,
          0 * wt + 30 * wl + 50 * wli + 75 * wp]),
       ("REAI_rank", Col.ints (rankDescMin
          [100 * wt + 70 * wl + 50 * wli + 25 * wp,
           0 * wt + 30 * wl + 50 * wli + 75 * wp]))]) := by
  simp only [REAICalculator.calculate_reai, trans_evalA, Option.some_bind,
    setColA1, labor_evalA, setColA2, lic_evalA, setColA3, policy_evalA,
    setColA4, hwt, hwl, hwli, hwp, compositeOf, zipWith4]
  simp [setCol, dA4, dA3, dA2, dA1, dfA]

lemma dfA_calc : defCalc.calculate_reai dfA = some dfA' := by
  have h := calcA_eval defCalc (30 / 100) (35 / 100) (20 / 100) (15 / 100)
    (by simp [defCalc, default_weights, lookupFirst])
    (by simp [defCalc, default_weights, lookupFirst])
    (by simp [defCalc, default_weights, lookupFirst])
    (by simp [defCalc, default_weights, lookupFirst])
  rw [h]
  norm_num [dfA', dA4, dA3, dA2, dA1, dfA, rankDescMin, countGreater]

/-- Engine accepted by validation although its labor market weight is
negative: the four weights sum to exactly 1. -/
def cNeg : REAICalculator :=
  ⟨[("transportation", 2), ("labor_market", -1), ("licensing", 0), ("policy", 0)]⟩

/-- The augmented table produced by running calculate on `dfA` with the
`cNeg` weights: its REAI values 130 and -30 leave [0, 100]. -/
def dfNegRes : DataFrame := dA4 ++
  [("REAI", Col.nums [130, -30]), ("REAI_rank", Col.ints [1, 2])]

lemma dfNeg_calc : cNeg.calculate_reai dfA = some dfNegRes := by
  have h := calcA_eval cNeg 2 (-1) 0 0
    (by simp [cNeg, lookupFirst]) (by simp [cNeg, lookupFirst])
    (by simp [cNeg, lookupFirst]) (by simp [cNeg, lookupFirst])
  rw [h]
  norm_num [dfNegRes, rankDescMin, countGreater]

/-- One-county table that already carries a column named REAI before
calculate runs. -/
def dfB : DataFrame :=
  [("pct_no_vehicle", Col.nums [5]),
   ("avg_commute_time", Col.nums [20]),
   ("pct_broadband", Col.nums [90]),
   ("unemployment_rate", Col.nums [4]),
   ("employment_growth", Col.nums [1]),
   ("poverty_rate", Col.nums [10]),
   ("licensing_burden_index", Col.nums [65]),
   ("ban_the_box_score", Col.nums [75]),
   ("fair_chance_score", Col.nums [60]),
   ("REAI", Col.nums [999])]

/-- Frame `dfB` after attaching the transportation score column. -/
def dB1 : DataFrame := dfB ++ [("transportation_score", Col.nums [50])]

/-- Frame `dB1` after attaching the labor market score column. -/
def dB2 : DataFrame := dB1 ++ [("labor_market_score", Col.nums [50])]

/-- Frame `dB2` after attaching the licensing score column. -/
def dB3 : DataFrame := dB2 ++ [("licensing_score", Col.nums [50])]

/-- Frame `dB3` after attaching the policy score column. -/
def dB4 : DataFrame := dB3 ++ [("policy_score", Col.nums [50])]

/-- Result of calculate on `dfB` with default weights: every score of the
single county is the neutral 50, and the pre-existing REAI column has been
overwritten in place. -/
def dfB' : DataFrame :=
  [("pct_no_vehicle", Col.nums [5]),
   ("avg_commute_time", Col.nums [20]),
   ("pct_broadband", Col.nums [90]),
   ("unemployment_rate", Col.nums [4]),
   ("employment_growth", Col.nums [1]),
   ("poverty_rate", Col.nums [10]),
   ("licensing_burden_index", Col.nums [65]),
   ("ban_the_box_score", Col.nums [75]),
   ("fair_chance_score", Col.nums [60]),
   ("REAI", Col.nums [50]),
   ("transportation_score", Col.nums [50]),
   ("labor_market_score", Col.nums [50]),
   ("licensing_score", Col.nums [50]),
   ("policy_score", Col.nums [50]),
   ("REAI_rank", Col.ints [1])]

lemma trans_evalB : calculate_transportation_score dfB = some [50] := by
  have h1 : getNum dfB "pct_no_vehicle" = some [5] := by
    simp [getNum, lookupFirst, dfB]
  have h2 : getNum dfB "avg_commute_time" = some [20] := by
    simp [getNum, lookupFirst, dfB]
  have h3 : getNum dfB "pct_broadband" = some [90] := by
    simp [getNum, lookupFirst, dfB]
  rw [calculate_transportation_score, h1, h2, h3]
  norm_num [normalize_score, seriesMin, seriesMax, zipWith3]

lemma setColB1 : setCol dfB "transportation_score" (Col.nums [50]) = dB1 := by
  simp [setCol, dfB, dB1]

lemma labor_evalB : calculate_labor_market_score dB1 = some [50] := by
  have h1 : getNum dB1 "unemployment_rate" = some [4] := by
    simp [getNum, lookupFirst, dB1, dfB]
  have h2 : getNum dB1 "employment_growth" = some [1] := by
    simp [getNum, lookupFirst, dB1, dfB]
  have h3 : getNum dB1 "poverty_rate" = some [10] := by
    simp [getNum, lookupFirst, dB1, dfB]
  rw [calculate_labor_market_score, h1, h2, h3]
  norm_num [normalize_score, seriesMin, seriesMax, zipWith3]

lemma setColB2 : setCol dB1 "labor_market_score" (Col.nums [50]) = dB2 := by
  simp [setCol, dB1, dfB, dB2]

lemma lic_evalB : calculate_licensing_score dB2 = some [50] := by
  have h1 : getNum dB2 "licensing_burden_index" = some [65] := by
    simp [getNum, lookupFirst, dB2, dB1, dfB]
  rw [calculate_licensing_score, h1]
  norm_num [normalize_score, seriesMin, seriesMax]

lemma setColB3 : setCol dB2 "licensing_score" (Col.nums [50]) = dB3 := by
  simp [setCol, dB2, dB1, dfB, dB3]

lemma policy_evalB : calculate_policy_score dB3 = some [50] := by
  have h1 : getNum dB3 "ban_the_box_score" = some [75] := by
    simp [getNum, lookupFirst, dB3, dB2, dB1, dfB]
  have h2 : getNum dB3 "fair_chance_score" = some [60] := by
    simp [getNum, lookupFirst, dB3, dB2, dB1, dfB]
  rw [calculate_policy_score, h1, h2]
  norm_num [normalize_score, seriesMin, seriesMax, zipWith2]

lemma setColB4 : setCol dB3 "policy_score" (Col.nums [50]) = dB4 := by
  simp [setCol, dB3, dB2, dB1, dfB, dB4]

lemma dfB_calc : defCalc.calculate_reai dfB = some dfB' := by
  simp only [REAICalculator.calculate_reai, trans_evalB, Option.some_bind,
    setColB1, labor_evalB, setColB2, lic_evalB, setColB3, policy_evalB,
    setColB4]
  have hwt : lookupFirst defCalc.weights "transportation" = some (30 / 100) := by
    simp [defCalc, default_weights, lookupFirst]
  have hwl : lookupFirst defCalc.weights "labor_market" = some (35 / 100) := by
    simp [defCalc, default_weights, lookupFirst]
  have hwli : lookupFirst defCalc.weights "licensing" = some (20 / 100) := by
    simp [defCalc, default_weights, lookupFirst]
  have hwp : lookupFirst defCalc.weights "policy" = some (15 / 100) := by
    simp [defCalc, default_weights, lookupFirst]
  simp only [hwt, hwl, hwli, hwp, Option.some_bind, compositeOf, zipWith4]
  norm_num [rankDescMin, countGreater]
  simp [setCol, dB4, dB3, dB2, dB1, dfB, dfB']

/-- Witness for C2: the two-county table dfA under the default engine. -/
theorem c2_witness :
    defCalc.calculate_reai dfA = some dfA' ∧
    ((∃ r : List ℚ,
      lookupFirst dfA' "REAI" = some (Col.nums r) ∧
      lookupFirst dfA' "REAI_rank" = some (Col.ints (rankDescMin r)) ∧
      (∀ i j : Nat, i < r.length → j < r.length →
        ((r.getD j 0 < r.getD i 0) →
          (rankDescMin r).getD i 0 ≤ (rankDescMin r).getD j 0) ∧
        (r.getD i 0 = r.getD j 0 →
          (rankDescMin r).getD i 0 = (rankDescMin r).getD j 0))) ∧
    rankDescMin [90, 90, 80] = [1, 1, 3]) :=
  ⟨dfA_calc, c2_rank_consistency defCalc dfA dfA' dfA_calc⟩

/-- Witness for C3 at dfA: the transportation scores 100 and 0 and the REAI
values 68.25 and 31.75 all lie in [0, 100]. -/
theorem c3_witness :
    defCalc.calculate_reai dfA = some dfA' ∧
    (∀ x ∈ [(100 : ℚ), 0], 0 ≤ x ∧ x ≤ 100) ∧
    (∀ x ∈ [(273 : ℚ) / 4, 127 / 4], 0 ≤ x ∧ x ≤ 100) := by
  refine ⟨dfA_calc, ?_, ?_⟩
  · exact (c3_scores_bounded_amended defCalc dfA dfA' dfA_calc).1
      "transportation_score" (by simp) [100, 0]
      (by simp [getNum, lookupFirst, dfA'])
  · exact (c3_scores_bounded_amended defCalc dfA dfA' dfA_calc).2
      (30 / 100) (35 / 100) (20 / 100) (15 / 100)
      (by simp [defCalc, default_weights, lookupFirst])
      (by simp [defCalc, default_weights, lookupFirst])
      (by simp [defCalc, default_weights, lookupFirst])
      (by simp [defCalc, default_weights, lookupFirst])
      (by norm_num) (by norm_num) (by norm_num) (by norm_num) (by norm_num)
      [273 / 4, 127 / 4] (by simp [getNum, lookupFirst, dfA'])

/-- C3 counterexample: the weight set (2, -1, 0, 0) sums to exactly 1 and is
accepted at construction, yet on dfA the resulting REAI column is [130, -30],
leaving [0, 100] in both directions, so the claim as stated is false. -/
theorem c3_claim_counterexample :
    REAICalculator.init (some [("transportation", 2), ("labor_market", -1),
      ("licensing", 0), ("policy", 0)]) = Except.ok cNeg ∧
    cNeg.calculate_reai dfA = some dfNegRes ∧
    getNum dfNegRes "REAI" = some [130, -30] ∧
    ¬ ((130 : ℚ) ≤ 100) ∧ ¬ ((0 : ℚ) ≤ -30) := by
  refine ⟨?_, dfNeg_calc, ?_, by norm_num, by norm_num⟩
  · simp only [REAICalculator.init, List.isEmpty_cons, Bool.false_eq_true, if_false]
    rw [if_pos ((isclose_one_iff _).mpr (by
      simp only [List.map_cons, List.map_nil, List.sum_cons, List.sum_nil]
      rw [abs_le]
      constructor <;> norm_num))]
    rfl
  · simp [getNum, lookupFirst, dfNegRes, dA4, dA3, dA2, dA1, dfA]

/-- Witness for C4: a scenario named alt with the engine's own default
weights on dfA's calculate output. -/
theorem c4_witness :
    ∃ res, defCalc.sensitivity_analysis dfA' [("alt", defCalc.weights)] =
      Except.ok res ∧
      lookupFirst res ("alt" ++ "_REAI") = lookupFirst dfA' "REAI" ∧
      lookupFirst res ("alt" ++ "_rank") = lookupFirst dfA' "REAI_rank" :=
  c4_base_scenario defCalc dfA dfA' "alt" dfA_calc
    (by simp [lookupFirst, dfA])
    (by
      rw [isclose_one_iff]
      simp only [defCalc, default_weights, List.map_cons, List.map_nil,
        List.sum_cons, List.sum_nil]
      rw [abs_le]
      constructor <;> norm_num)

/-- A balanced scenario weight set summing to exactly 1. -/
def wBal : List (String × ℚ) :=
  [("transportation", 1 / 4), ("labor_market", 1 / 4),
   ("licensing", 1 / 4), ("policy", 1 / 4)]

/-- The spec's own rejected example weight set, summing to 0.95. -/
def wBad : List (String × ℚ) :=
  [("transportation", 2 / 10), ("labor_market", 5 / 10),
   ("licensing", 15 / 100), ("policy", 1 / 10)]

/-- Witness for C7: after one valid scenario, the scenario named skewed with
weight sum 0.95 aborts the analysis with the error naming it. -/
theorem c7_witness :
    defCalc.sensitivity_analysis dfA' [("balanced", wBal), ("skewed", wBad)] =
      Except.error "Weights for skewed must sum to 1.0" := by
  have h := c7_scenario_validation defCalc dfA' [("balanced", wBal)] []
    "skewed" wBad
    (by simp [lookupFirst, dfA']) (by simp [lookupFirst, dfA'])
    (by simp [lookupFirst, dfA'])
    (by simp [getNum, lookupFirst, dfA']) (by simp [getNum, lookupFirst, dfA'])
    (by simp [getNum, lookupFirst, dfA']) (by simp [getNum, lookupFirst, dfA'])
    (by
      intro s hs
      simp only [List.mem_cons, List.not_mem_nil, or_false] at hs
      subst hs
      refine ⟨?_, by simp [wBal, lookupFirst], by simp [wBal, lookupFirst],
        by simp [wBal, lookupFirst], by simp [wBal, lookupFirst]⟩
      rw [isclose_one_iff]
      simp only [wBal, List.map_cons, List.map_nil, List.sum_cons, List.sum_nil]
      rw [abs_le]
      constructor <;> norm_num)
    (by
      rw [← Bool.not_eq_true, isclose_one_iff]
      simp only [wBad, List.map_cons, List.map_nil, List.sum_cons, List.sum_nil]
      rw [abs_le]
      push_neg
      intro hcontra
      norm_num at hcontra)
  simpa using h

/-- Witness for C10: on dfA no input column changes and the derived REAI
column is present after calculate. -/
theorem c10_witness :
    defCalc.calculate_reai dfA = some dfA' ∧
    lookupFirst dfA' "county" = lookupFirst dfA "county" ∧
    (lookupFirst dfA' "REAI").isSome = true := by
  refine ⟨dfA_calc, ?_, ?_⟩
  · exact (c10_frame_preserved defCalc dfA dfA' dfA_calc).1 "county" (by decide)
  · exact (c10_frame_preserved defCalc dfA dfA' dfA_calc).2 "REAI" (by decide)

/-- C10 counterexample: dfB carries a column named REAI with value 999
before the call; after calculate the returned table's REAI column is 50, so
a column present in the input did not keep its values. -/
theorem c10_claim_counterexample :
    lookupFirst dfB "REAI" = some (Col.nums [999]) ∧
    defCalc.calculate_reai dfB = some dfB' ∧
    lookupFirst dfB' "REAI" = some (Col.nums [50]) ∧
    ¬ (Col.nums [(999 : ℚ)] = Col.nums [50]) := by
  refine ⟨by simp [lookupFirst, dfB], dfB_calc, by simp [lookupFirst, dfB'], ?_⟩
  norm_num

/-- Witness for C8: the default engine (canonical key order) on dfA's
calculate output. -/
theorem c8_witness :
    ∃ t, defCalc.get_summary_statistics dfA' = some t ∧
      t.rows = ["REAI", "transportation_score", "labor_market_score",
        "licensing_score", "policy_score"] ∧
      t.cols.map Prod.fst = statNames ∧
      lookupFirst t.cols "weight" =
        some [1, 30 / 100, 35 / 100, 20 / 100, 15 / 100] :=
  c8_summary_amended defCalc dfA dfA' (30 / 100) (35 / 100) (20 / 100)
    (15 / 100) rfl dfA_calc

/-- Engine whose weight dict lists the same four default weight values in a
different insertion order (policy first); its sum is 1, so it is accepted. -/
def cScr : REAICalculator :=
  ⟨[("policy", 15 / 100), ("transportation", 30 / 100),
    ("labor_market", 35 / 100), ("licensing", 20 / 100)]⟩

lemma dfScr_calc : cScr.calculate_reai dfA = some dfA' := by
  have h := calcA_eval cScr (30 / 100) (35 / 100) (20 / 100) (15 / 100)
    (by simp [cScr, lookupFirst]) (by simp [cScr, lookupFirst])
    (by simp [cScr, lookupFirst]) (by simp [cScr, lookupFirst])
  rw [h]
  norm_num [dfA', dA4, dA3, dA2, dA1, dfA, rankDescMin, countGreater]

/-- C8 counterexample: under the scrambled-order engine cScr the summary
statistics table returned for dfA' has no count column at all, and its
weight column [1.0, 0.15, 0.30, 0.35, 0.20] attaches 0.15 (the policy
weight) to the transportation_score row although the engine's configured
transportation weight is 0.30 — refuting both the count part and the
per-component weight alignment part of the claim. -/
theorem c8_claim_counterexample :
    REAICalculator.init (some [("policy", 15 / 100), ("transportation", 30 / 100),
      ("labor_market", 35 / 100), ("licensing", 20 / 100)]) = Except.ok cScr ∧
    cScr.calculate_reai dfA = some dfA' ∧
    (cScr.get_summary_statistics dfA').map (fun t => t.cols.map Prod.fst) =
      some ["weight", "mean", "std", "min", "25%", "50%", "75%", "max"] ∧
    (cScr.get_summary_statistics dfA').map (fun t => t.rows.getD 1 "") =
      some "transportation_score" ∧
    (cScr.get_summary_statistics dfA').map (fun t => lookupFirst t.cols "weight") =
      some (some [1, 15 / 100, 30 / 100, 35 / 100, 20 / 100]) ∧
    lookupFirst cScr.weights "transportation" = some (30 / 100) ∧
    ¬ ((15 : ℚ) / 100 = 30 / 100) := by
  have hR : getNum dfA' "REAI" = some [273 / 4, 127 / 4] := by
    simp [getNum, lookupFirst, dfA']
  have hT : getNum dfA' "transportation_score" = some [100, 0] := by
    simp [getNum, lookupFirst, dfA']
  have hL : getNum dfA' "labor_market_score" = some [70, 30] := by
    simp [getNum, lookupFirst, dfA']
  have hLi : getNum dfA' "licensing_score" = some [50, 50] := by
    simp [getNum, lookupFirst, dfA']
  have hP : getNum dfA' "policy_score" = some [25, 75] := by
    simp [getNum, lookupFirst, dfA']
  have hs : cScr.get_summary_statistics dfA' = some
    { rows := ["REAI", "transportation_score", "labor_market_score",
        "licensing_score", "policy_score"],
      cols :=
        [("weight", [1, 15 / 100, 30 / 100, 35 / 100, 20 / 100]),
         ("mean", [colMean [273 / 4, 127 / 4], colMean [100, 0], colMean [70, 30],
            colMean [50, 50], colMean [25, 75]]),
         ("std", [colVar [273 / 4, 127 / 4], colVar [100, 0], colVar [70, 30],
            colVar [50, 50], colVar [25, 75]]),
         ("min", [seriesMin [273 / 4, 127 / 4], seriesMin [100, 0],
            seriesMin [70, 30], seriesMin [50, 50], seriesMin [25, 75]]),
         ("25%", [quantile [273 / 4, 127 / 4] (1 / 4), quantile [100, 0] (1 / 4),
            quantile [70, 30] (1 / 4), quantile [50, 50] (1 / 4),
            quantile [25, 75] (1 / 4)]),
         ("50%", [quantile [273 / 4, 127 / 4] (1 / 2), quantile [100, 0] (1 / 2),
            quantile [70, 30] (1 / 2), quantile [50, 50] (1 / 2),
            quantile [25, 75] (1 / 2)]),
         ("75%", [quantile [273 / 4, 127 / 4] (3 / 4), quantile [100, 0] (3 / 4),
            quantile [70, 30] (3 / 4), quantile [50, 50] (3 / 4),
            quantile [25, 75] (3 / 4)]),
         ("max", [seriesMax [273 / 4, 127 / 4], seriesMax [100, 0],
            seriesMax [70, 30], seriesMax [50, 50], seriesMax [25, 75]])] } := by
    simp [REAICalculator.get_summary_statistics, hR, hT, hL, hLi, hP, cScr,
      describeT, statNames, lookupFirst]
  refine ⟨?_, dfScr_calc, ?_, ?_, ?_, by simp [cScr, lookupFirst], by norm_num⟩
  · simp only [REAICalculator.init, List.isEmpty_cons, Bool.false_eq_true, if_false]
    rw [if_pos ((isclose_one_iff _).mpr (by
      simp only [List.map_cons, List.map_nil, List.sum_cons, List.sum_nil]
      rw [abs_le]
      constructor <;> norm_num))]
    rfl
  · rw [hs]
    simp
  · rw [hs]
    simp
  · rw [hs]
    simp [lookupFirst]

/-- Witness for C1 at the default weight values, which sum to exactly 1. -/
theorem c1_witness :
    REAICalculator.init (some [("transportation", (30 : ℚ) / 100),
      ("labor_market", 35 / 100), ("licensing", 20 / 100), ("policy", 15 / 100)]) =
      (if |(30 : ℚ) / 100 + 35 / 100 + 20 / 100 + 15 / 100 - 1| ≤
          1 / 100000000 + 1 / 100000 then
        Except.ok ⟨[("transportation", (30 : ℚ) / 100), ("labor_market", 35 / 100),
          ("licensing", 20 / 100), ("policy", 15 / 100)]⟩
      else Except.error "Weights must sum to 1.0") :=
  c1_tolerance_amended (30 / 100) (35 / 100) (20 / 100) (15 / 100)
